import Mathlib

/-!
# Verification of `snapshot_date_filter` simulation driver (`simulate.py`)

Shallow embedding of `src/simulate.py` and of the parts of the
`snapshot_date_filter` module it calls.  Timestamps are modelled as `Int`
seconds; a retention specification is a list of `(duration, count)` pairs.
-/

namespace SnapshotSim

/-- A retention specification: an ordered list of (bucket duration in
seconds, retention count) pairs, as produced by the spec parser. -/
abbrev Reten := List (Nat × Nat)

/-- Python floor division `//` on integers, as used for bucket indices. -/
def pyFloorDiv (a : Int) (b : Nat) : Int := Int.fdiv a (b : Int)

/-- Modelled from the spec: per-granularity bucket selection of the
retention filter (§4.1 steps 2–3).  `sorted` is the snapshot list sorted
most-recent first; walking it, the first snapshot seen in each distinct
bucket `floor((now - t) / d)` is that bucket's representative and is kept,
until `c` distinct buckets have been kept.  `seen` accumulates the bucket
indices already represented. -/
def selectForGran (now : Int) (d : Nat) (c : Nat) : List Int → List Int → List Int
  | [], _ => []
  | t :: ts, seen =>
    if seen.length < c ∧ pyFloorDiv (now - t) d ∉ seen then
      t :: selectForGran now d c ts (pyFloorDiv (now - t) d :: seen)
    else
      selectForGran now d c ts seen

/-- Modelled from the spec: the retention filter `date_filter` of the
`snapshot_date_filter` module (absent from `src/`), following §4.1: sort
descending by recency; per granularity keep the representative of each of
the `count` most recent distinct buckets; union across granularities;
optionally keep the single most recent snapshot (`keep_latest`) and every
snapshot younger than the minimum configured bucket duration
(`keep_younger`). -/
def date_filter (snapdates : List Int) (reten : Reten) (now : Int)
    (keep_latest : Bool) (keep_younger : Bool) : List Int :=
  let sorted := snapdates.insertionSort (fun a b => a ≥ b)
  let byBuckets := reten.foldl
    (fun acc g => acc ++ selectForGran now g.1 g.2 sorted []) []
  let latest := if keep_latest then sorted.take 1 else []
  let younger :=
    if keep_younger then
      match (reten.map Prod.fst).min? with
      | none => []
      | some d => sorted.filter (fun t => now - t < (d : Int))
    else []
  (byBuckets ++ latest ++ younger).dedup

/-- The state the simulation loop threads between rounds: the current
snapshot list and the current simulated `now`. -/
structure SimState where
  snapdates : List Int
  now : Int
  deriving Repr, DecidableEq

/-- Modelled from the spec: the exit-signaling collaborator (§6) of the
`snapshot_date_filter` module (absent from `src/`): `okExit` prints a
message and terminates the process with status 0, `errorExit` with a
non-zero status.  `running s` is the state of an unfinished run when the
explicit fuel bound is exhausted. -/
inductive SimOutcome where
  | errorExit (msg : String)
  | okExit (msg : String)
  | running (s : SimState)
  deriving Repr, DecidableEq

/-- One iteration of the body of the `while True` loop in `simulate`
(src/simulate.py lines 52-65) in the case where the loop does not exit:
call the filter, advance `now` by `interval` seconds, and when `create` is
set append one snapshot at the new `now`; the resulting list becomes the
next round's snapshot list. -/
def simStep (reten : Reten) (interval : Int)
    (keep_latest keep_younger create : Bool) (s : SimState) : SimState :=
  let output_dates := date_filter s.snapdates reten s.now keep_latest keep_younger
  let now' := s.now + interval
  { snapdates := if create then output_dates ++ [now'] else output_dates,
    now := now' }

/-- The `while True` loop of `simulate` (src/simulate.py lines 48-65), run
on explicit fuel: at the start of each round, if the snapshot list is empty
the loop exits successfully with "No more snapshots" before any filter
call; otherwise the round body `simStep` runs and the loop continues. -/
def simLoop (reten : Reten) (interval : Int)
    (keep_latest keep_younger create : Bool) : Nat → SimState → SimOutcome
  | 0, s => .running s
  | fuel + 1, s =>
    if s.snapdates.isEmpty then .okExit "No more snapshots"
    else simLoop reten interval keep_latest keep_younger create fuel
      (simStep reten interval keep_latest keep_younger create s)

/-- Defaulting of `now` at the top of `simulate` (src/simulate.py lines
40-44): when `now` is absent it becomes the maximum timestamp of the
snapshot list, and `max` of an empty list raises, turned into the fatal
error "Empty snapshot list". -/
def initNow (snapdates : List Int) (now : Option Int) : Except String Int :=
  match now with
  | some t => .ok t
  | none =>
    match snapdates.max? with
    | some m => .ok m
    | none => .error "Empty snapshot list"

/-- The `simulate` function of src/simulate.py, with printing and the
interactive pause (`prompt`) elided and the unbounded loop run on explicit
fuel. -/
def simulate (snapdates : List Int) (reten : Reten) (interval : Int)
    (keep_latest keep_younger create prompt : Bool) (now : Option Int)
    (fuel : Nat) : SimOutcome :=
  match initNow snapdates now with
  | .error msg => .errorExit msg
  | .ok n0 =>
    simLoop reten interval keep_latest keep_younger create fuel ⟨snapdates, n0⟩

/-- The `__main__` block of src/simulate.py, over the outcomes of its
collaborators: `retenResult` is the result of `parse_reten_spec` (`.error e`
models a raised `ValueError` with message `e`), `intervalResult` the result
of `int(args["-i"])` (`none` models a raised `ValueError`), and
`stdinDates` the timestamps parsed from standard input.  As in the source,
the retention spec is examined first, then the interval, and only then is
standard input consulted and `simulate` entered with `now` absent. -/
def mainRun (listValidIntervals : Bool) (validIntervalsMsg : String)
    (retenResult : Except String Reten) (intervalResult : Option Int)
    (keep_latest keep_younger create prompt : Bool)
    (stdinDates : List Int) (fuel : Nat) : SimOutcome :=
  if listValidIntervals then .okExit validIntervalsMsg
  else
    match retenResult with
    | .error e => .errorExit e
    | .ok reten =>
      match intervalResult with
      | none => .errorExit "-i requires a numeric value"
      | some interval =>
        simulate stdinDates reten interval keep_latest keep_younger create
          prompt none fuel

/-- The state at the start of round `n` of the simulation loop, given that
no earlier round exited: the `n`-fold iteration of the round body
`simStep` from the initial state. -/
def roundState (reten : Reten) (interval : Int)
    (keep_latest keep_younger create : Bool) (s0 : SimState) : Nat → SimState
  | 0 => s0
  | n + 1 => simStep reten interval keep_latest keep_younger create
      (roundState reten interval keep_latest keep_younger create s0 n)

/-! ## Helper lemmas -/

lemma simStep_now (reten : Reten) (interval : Int) (kl ky cr : Bool)
    (s : SimState) : (simStep reten interval kl ky cr s).now = s.now + interval :=
  rfl

lemma roundState_now (reten : Reten) (interval : Int) (kl ky cr : Bool)
    (s0 : SimState) (n : Nat) :
    (roundState reten interval kl ky cr s0 n).now = s0.now + (n : Int) * interval := by
  induction n with
  | zero => simp [roundState]
  | succ n ih =>
    rw [roundState, simStep_now, ih]
    push_cast
    ring

lemma selectForGran_subset (now : Int) (d c : Nat) (ts : List Int) :
    ∀ (seen : List Int) (t : Int), t ∈ selectForGran now d c ts seen → t ∈ ts := by
  induction ts with
  | nil => intro seen t h; simp [selectForGran] at h
  | cons a as ih =>
    intro seen t h
    rw [selectForGran] at h
    split at h
    · rcases List.mem_cons.mp h with h1 | h2
      · exact h1 ▸ List.mem_cons_self a as
      · exact List.mem_cons_of_mem a (ih _ t h2)
    · exact List.mem_cons_of_mem a (ih _ t h)

lemma foldl_select_subset (now : Int) (sorted : List Int) (reten : Reten) :
    ∀ (acc : List Int), (∀ x ∈ acc, x ∈ sorted) →
      ∀ t ∈ reten.foldl
        (fun acc g => acc ++ selectForGran now g.1 g.2 sorted []) acc,
        t ∈ sorted := by
  induction reten with
  | nil => intro acc hacc t ht; exact hacc t ht
  | cons g gs ih =>
    intro acc hacc t ht
    simp only [List.foldl_cons] at ht
    refine ih _ ?_ t ht
    intro x hx
    rcases List.mem_append.mp hx with h | h
    · exact hacc x h
    · exact selectForGran_subset now g.1 g.2 sorted [] x h

lemma date_filter_subset (snapdates : List Int) (reten : Reten) (now : Int)
    (kl ky : Bool) :
    ∀ t ∈ date_filter snapdates reten now kl ky, t ∈ snapdates := by
  intro t ht
  simp only [date_filter] at ht
  rw [List.mem_dedup] at ht
  have hsor : ∀ x ∈ snapdates.insertionSort (fun a b => a ≥ b),
      x ∈ snapdates :=
    fun x hx => (List.perm_insertionSort (fun a b => a ≥ b) snapdates).mem_iff.mp hx
  rcases List.mem_append.mp ht with h | h
  · rcases List.mem_append.mp h with h1 | h2
    · exact hsor t
        (foldl_select_subset now _ reten [] (by simp) t h1)
    · split at h2
      · exact hsor t (List.mem_of_mem_take h2)
      · simp at h2
  · split at h
    · split at h
      · simp at h
      · exact hsor t (List.mem_of_mem_filter h)
    · simp at h

lemma simLoop_create_running (reten : Reten) (interval : Int) (kl ky : Bool) :
    ∀ (fuel : Nat) (s : SimState), s.snapdates ≠ [] →
      ∃ s', simLoop reten interval kl ky true fuel s = .running s' := by
  intro fuel
  induction fuel with
  | zero => intro s _; exact ⟨s, rfl⟩
  | succ n ih =>
    intro s hs
    rw [simLoop, if_neg (by simpa using hs)]
    exact ih _ (by simp [simStep])

/-! ## Claim theorems -/

/-- C1: when `simulate` is called with `now` absent and a non-empty snapshot
list, it defaults `now` to the maximum timestamp of the initial list and
enters the loop with that `now`, so round 0's reference time is the most
recent input snapshot. -/
theorem C1_default_now_is_max (snapdates : List Int) (reten : Reten)
    (interval : Int) (kl ky cr pr : Bool) (fuel : Nat) (h : snapdates ≠ []) :
    ∃ m, snapdates.max? = some m ∧ m ∈ snapdates ∧ (∀ t ∈ snapdates, t ≤ m) ∧
      simulate snapdates reten interval kl ky cr pr none fuel
        = simLoop reten interval kl ky cr fuel ⟨snapdates, m⟩ := by
  cases hm : snapdates.max? with
  | none => exact absurd (List.max?_eq_none_iff.mp hm) h
  | some m =>
    refine ⟨m, rfl, List.max?_mem (fun _ _ => max_choice _ _) hm,
      fun t ht => (List.max?_le_iff (fun _ _ _ => max_le_iff) hm).mp le_rfl t ht,
      ?_⟩
    simp [simulate, initNow, hm]

theorem C1_witness :
    ∃ m, ([3, 7, 5] : List Int).max? = some m ∧ m ∈ ([3, 7, 5] : List Int) ∧
      (∀ t ∈ ([3, 7, 5] : List Int), t ≤ m) ∧
      simulate [3, 7, 5] [] 10 false false false false none 0
        = simLoop [] 10 false false false 0 ⟨[3, 7, 5], m⟩ :=
  C1_default_now_is_max [3, 7, 5] [] 10 false false false false 0 (by decide)

/-- C2: at the start of any round with an empty snapshot list the loop exits
with the success message "No more snapshots", and the loop never produces an
error exit: exhausting snapshots mid-simulation is not an error. -/
theorem C2_empty_mid_simulation_success (reten : Reten) (interval : Int)
    (kl ky cr : Bool) :
    (∀ (fuel : Nat) (s : SimState), s.snapdates = [] →
        simLoop reten interval kl ky cr (fuel + 1) s
          = .okExit "No more snapshots")
    ∧ ∀ (fuel : Nat) (s : SimState) (msg : String),
        simLoop reten interval kl ky cr fuel s ≠ .errorExit msg := by
  constructor
  · intro fuel s h
    rw [simLoop, if_pos (by simp [h])]
  · intro fuel
    induction fuel with
    | zero => intro s msg h; exact SimOutcome.noConfusion h
    | succ n ih =>
      intro s msg
      rw [simLoop]
      by_cases h : s.snapdates.isEmpty
      · rw [if_pos h]; exact fun hc => SimOutcome.noConfusion hc
      · rw [if_neg h]; exact ih _ _

theorem C2_witness :
    simLoop [] 1 false false false 1 ⟨[], 0⟩ = .okExit "No more snapshots" ∧
    simLoop [] 1 false false false 2 ⟨[], 5⟩ ≠ .errorExit "boom" :=
  ⟨(C2_empty_mid_simulation_success [] 1 false false false).1 0 ⟨[], 0⟩ rfl,
   (C2_empty_mid_simulation_success [] 1 false false false).2 2 ⟨[], 5⟩ "boom"⟩

/-- C3: with an empty initial snapshot list and `now` not supplied,
`simulate` exits with the error "Empty snapshot list" before the loop and
before any filter call. -/
theorem C3_empty_initial_error (reten : Reten) (interval : Int)
    (kl ky cr pr : Bool) (fuel : Nat) :
    simulate [] reten interval kl ky cr pr none fuel
      = .errorExit "Empty snapshot list" := rfl

/-- C4: in a round with a non-empty snapshot list and create mode on, the
round body advances `now` by `interval` and appends exactly one snapshot at
the new `now` to the filter output, and that list is the next round's
input. -/
theorem C4_create_round (reten : Reten) (interval : Int) (kl ky : Bool)
    (fuel : Nat) (s : SimState) (h : s.snapdates ≠ []) :
    (simStep reten interval kl ky true s).snapdates
        = date_filter s.snapdates reten s.now kl ky ++ [s.now + interval]
    ∧ (simStep reten interval kl ky true s).now = s.now + interval
    ∧ simLoop reten interval kl ky true (fuel + 1) s
        = simLoop reten interval kl ky true fuel
            ⟨date_filter s.snapdates reten s.now kl ky ++ [s.now + interval],
              s.now + interval⟩ := by
  refine ⟨rfl, rfl, ?_⟩
  rw [simLoop, if_neg (by simpa using h)]
  rfl

theorem C4_witness :
    (simStep [] 5 false false true ⟨[0], 0⟩).snapdates
        = date_filter [0] [] 0 false false ++ [(0 : Int) + 5]
    ∧ (simStep [] 5 false false true ⟨[0], 0⟩).now = (0 : Int) + 5
    ∧ simLoop [] 5 false false true 1 ⟨[0], 0⟩
        = simLoop [] 5 false false true 0
            ⟨date_filter [0] [] 0 false false ++ [(0 : Int) + 5], (0 : Int) + 5⟩ :=
  C4_create_round [] 5 false false 0 ⟨[0], 0⟩ (by decide)

/-- C5: the simulated clock is linear: every iteration of the loop body adds
`interval` to `now`, and the state at the start of round `i` has
`now = initial now + i * interval`. -/
theorem C5_now_linear (reten : Reten) (interval : Int) (kl ky cr : Bool)
    (s0 : SimState) :
    (∀ s : SimState, (simStep reten interval kl ky cr s).now = s.now + interval)
    ∧ ∀ i : Nat, (roundState reten interval kl ky cr s0 i).now
        = s0.now + (i : Int) * interval :=
  ⟨fun s => simStep_now reten interval kl ky cr s,
   fun i => roundState_now reten interval kl ky cr s0 i⟩

/-- C6: the kept set returned by the retention filter is always a subset of
the input snapshot set: the filter never introduces new timestamps. -/
theorem C6_kept_subset (snapdates : List Int) (reten : Reten) (now : Int)
    (kl ky : Bool) (t : Int) (h : t ∈ date_filter snapdates reten now kl ky) :
    t ∈ snapdates :=
  date_filter_subset snapdates reten now kl ky t h

theorem C6_witness :
    (0 : Int) ∈ date_filter [0] [(3600, 1)] 0 false false ∧
    (0 : Int) ∈ ([0] : List Int) :=
  ⟨by decide, C6_kept_subset [0] [(3600, 1)] 0 false false 0 (by decide)⟩

/-- C7: when parsing the retention specification fails, the program exits
with the parser's error message, for every possible standard-input content
and interval argument: validation precedes reading snapshot names and the
simulation loop. -/
theorem C7_reten_parse_error (vmsg e : String) (intervalResult : Option Int)
    (kl ky cr pr : Bool) (stdinDates : List Int) (fuel : Nat) :
    mainRun false vmsg (.error e) intervalResult kl ky cr pr stdinDates fuel
      = .errorExit e := rfl

/-- C8: when the `-i` argument is not parseable as an integer, the program
exits with the error "-i requires a numeric value" before any simulation,
for every standard-input content. -/
theorem C8_interval_parse_error (vmsg : String) (reten : Reten)
    (kl ky cr pr : Bool) (stdinDates : List Int) (fuel : Nat) :
    mainRun false vmsg (.ok reten) none kl ky cr pr stdinDates fuel
      = .errorExit "-i requires a numeric value" := rfl

/-- C9: under create mode, the state at the start of every round after
round 0 contains the snapshot appended at the previous round's new `now`
and is non-empty, and the loop never exits on its own: it only stops when
the fuel bound is exhausted, still running. -/
theorem C9_create_never_exhausts (reten : Reten) (interval : Int)
    (kl ky : Bool) (s : SimState) (h : s.snapdates ≠ []) :
    (∀ n : Nat,
        s.now + ((n : Int) + 1) * interval
            ∈ (roundState reten interval kl ky true s (n + 1)).snapdates
        ∧ (roundState reten interval kl ky true s (n + 1)).snapdates ≠ [])
    ∧ ∀ fuel : Nat, ∃ s',
        simLoop reten interval kl ky true fuel s = .running s' := by
  constructor
  · intro n
    have hsnap : (roundState reten interval kl ky true s (n + 1)).snapdates
        = date_filter (roundState reten interval kl ky true s n).snapdates
            reten (roundState reten interval kl ky true s n).now kl ky
          ++ [(roundState reten interval kl ky true s n).now + interval] := rfl
    constructor
    · have heq : s.now + ((n : Int) + 1) * interval
          = (roundState reten interval kl ky true s n).now + interval := by
        rw [roundState_now]; ring
      rw [hsnap, heq]
      exact List.mem_append_right _ (List.mem_singleton_self _)
    · rw [hsnap]
      simp
  · exact fun fuel => simLoop_create_running reten interval kl ky fuel s h

theorem C9_witness :
    ((0 : Int) + (((0 : Nat) : Int) + 1) * 7
        ∈ (roundState [] 7 false false true ⟨[0], 0⟩ (0 + 1)).snapdates
      ∧ (roundState [] 7 false false true ⟨[0], 0⟩ (0 + 1)).snapdates ≠ [])
    ∧ ∃ s', simLoop [] 7 false false true 3 ⟨[0], 0⟩ = .running s' :=
  ⟨(C9_create_never_exhausts [] 7 false false ⟨[0], 0⟩ (by decide)).1 0,
   (C9_create_never_exhausts [] 7 false false ⟨[0], 0⟩ (by decide)).2 3⟩

/-- C10: with an explicitly supplied `now` and an empty snapshot list,
`simulate` exits successfully with "No more snapshots" rather than with the
"Empty snapshot list" error: that error can only arise when `now` must be
defaulted from the input list. -/
theorem C10_supplied_now_empty_list (reten : Reten) (interval : Int)
    (kl ky cr pr : Bool) (t : Int) (fuel : Nat) :
    simulate [] reten interval kl ky cr pr (some t) (fuel + 1)
      = .okExit "No more snapshots" := rfl

end SnapshotSim
